import Mathlib

/-!
Verification of the solar-system animation (`453-skeleton/main.cpp`).

The C++ program is embedded shallowly over `ℚ`:

* `float`/`double` scalars become `ℚ` (exact arithmetic; the spec's
  floating-point-tolerance caveats become exact equalities);
* the external mathematics and platform collaborators (`glm::sin`, `glm::cos`,
  `glm::normalize`, `glm::rotate`, `glm::translate`) are fields of an
  environment record `Env`: `main.cpp` treats them as black boxes and no claim
  depends on their internals;
* the process-wide globals (`animationSpeed`, `isAnimating`,
  `restartAnimation`, `lastUpdateTime`, `currUpdateTime`) become the record
  `Globals`, threaded explicitly;
* each `Planet` method becomes a function from (and to) an explicit `Planet`
  record; the parent pointer becomes an `Option Vec3` argument carrying the
  parent's current position (the only thing the code reads through it);
* `glfwGetTime()` readings become explicit time arguments;
* the render loop's per-frame state changes become the function `frame`.
-/

namespace SolarSystem

/-- glm `vec2` over `ℚ`. -/
structure Vec2 where
  x : ℚ
  y : ℚ
deriving DecidableEq

/-- glm `vec3` over `ℚ`. -/
structure Vec3 where
  x : ℚ
  y : ℚ
  z : ℚ
deriving DecidableEq

/-- glm `vec4` over `ℚ`. -/
structure Vec4 where
  x : ℚ
  y : ℚ
  z : ℚ
  w : ℚ
deriving DecidableEq

/-- glm `mat4` over `ℚ`, column-major as in glm: four columns. -/
structure Mat4 where
  c0 : Vec4
  c1 : Vec4
  c2 : Vec4
  c3 : Vec4
deriving DecidableEq

def Vec3.add (a b : Vec3) : Vec3 := ⟨a.x + b.x, a.y + b.y, a.z + b.z⟩

def Vec3.sub (a b : Vec3) : Vec3 := ⟨a.x - b.x, a.y - b.y, a.z - b.z⟩

/-- Scalar times `vec3`, as in `distanceFromParent * vec3(...)`. -/
def Vec3.scale (r : ℚ) (v : Vec3) : Vec3 := ⟨r * v.x, r * v.y, r * v.z⟩

def Vec4.scale (r : ℚ) (v : Vec4) : Vec4 := ⟨r * v.x, r * v.y, r * v.z, r * v.w⟩

def Vec4.add (a b : Vec4) : Vec4 := ⟨a.x + b.x, a.y + b.y, a.z + b.z, a.w + b.w⟩

/-- glm matrix-vector product (column-major): `m * v = v.x·c0 + v.y·c1 + v.z·c2 + v.w·c3`. -/
def Mat4.mulVec (m : Mat4) (v : Vec4) : Vec4 :=
  ((Vec4.scale v.x m.c0).add (Vec4.scale v.y m.c1)).add
    ((Vec4.scale v.z m.c2).add (Vec4.scale v.w m.c3))

/-- glm `vec3(vec4)` truncation. -/
def Vec4.toVec3 (v : Vec4) : Vec3 := ⟨v.x, v.y, v.z⟩

/-- `mat4(1.0f)`: the identity matrix. -/
def mat4Identity : Mat4 :=
  ⟨⟨1, 0, 0, 0⟩, ⟨0, 1, 0, 0⟩, ⟨0, 0, 1, 0⟩, ⟨0, 0, 0, 1⟩⟩

/-- The external mathematics collaborators used by `main.cpp` (glm functions
and trigonometry). They are opaque to the program; the embedding keeps them
abstract as record fields so every theorem holds for any interpretation. -/
structure Env where
  sin : ℚ → ℚ
  cos : ℚ → ℚ
  normalize : Vec3 → Vec3
  rotate : Mat4 → ℚ → Vec3 → Mat4
  translate : Mat4 → Vec3 → Mat4

/-- `constexpr float PI = 3.14159265359f;` -/
def PI : ℚ := 3.14159265359

/-- `const float uvInc = 0.1f;` -/
def uvInc : ℚ := 0.1

/-- `vec3 xAxisOfRotation = vec3(1.0f, 0.0f, 0.0f);` -/
def xAxisOfRotation : Vec3 := ⟨1, 0, 0⟩

/-- `vec3 yAxisOfRotation = vec3(0.0f, 1.0f, 0.0f);` -/
def yAxisOfRotation : Vec3 := ⟨0, 1, 0⟩

/-- `vec4 xAxisMatrix = vec4(1.0f, 0.0f, 0.0f, 0.0f);` -/
def xAxisMatrix : Vec4 := ⟨1, 0, 0, 0⟩

/-- `vec4 yAxisMatrix = vec4(0.0f, 1.0f, 0.0f, 0.0f);` -/
def yAxisMatrix : Vec4 := ⟨0, 1, 0, 0⟩

/-- The process-wide mutable globals of `main.cpp`:
`animationSpeed`, `isAnimating`, `restartAnimation`,
`lastUpdateTime`, `currUpdateTime`. -/
structure Globals where
  animationSpeed : ℚ
  isAnimating : Bool
  restartAnimation : Bool
  lastUpdateTime : ℚ
  currUpdateTime : ℚ
deriving DecidableEq

/-- The `Planet` class: constants fixed at construction, the mutable
angle/position/axis state, the generated mesh, and the four matrices. -/
structure Planet where
  orbitalInclination : ℚ
  axialTilt : ℚ
  distanceFromParent : ℚ
  orbitalSpeed : ℚ
  rotationSpeed : ℚ
  radius : ℚ
  orbitalAngle : ℚ
  axialAngle : ℚ
  position : Vec3
  rotationAxis : Vec3
  verts : List Vec3
  texCoords : List Vec2
  normals : List Vec3
  modelMatrix : Mat4
  translationMatrix : Mat4
  axialRotationMatrix : Mat4
  negAxialRotationMatrix : Mat4

/-- `Planet::getElapsedTime`: `currUpdateTime - lastUpdateTime`
(globals, shared by every planet). -/
def getElapsedTime (g : Globals) : ℚ := g.currUpdateTime - g.lastUpdateTime

/-- `Planet::updateAxialRotation`. -/
def Planet.updateAxialRotation (E : Env) (g : Globals) (p : Planet) : Planet :=
  let axialAngle := p.axialAngle + p.rotationSpeed * g.animationSpeed * getElapsedTime g
  { p with
    axialAngle := axialAngle
    axialRotationMatrix := E.rotate p.modelMatrix axialAngle p.rotationAxis
    negAxialRotationMatrix := E.rotate p.modelMatrix (-axialAngle) p.rotationAxis }

/-- `Planet::updateLocation`. The parent pointer is passed as the parent's
current position (`none` models `parent == nullptr`). -/
def Planet.updateLocation (E : Env) (parentPos : Option Vec3) (p : Planet) : Planet :=
  match parentPos with
  | none => { p with position := ⟨0, 0, 0⟩ }
  | some parentPosition =>
    let relativePositionFromParent :=
      Vec3.scale p.distanceFromParent
        ⟨E.sin p.orbitalAngle, E.sin p.orbitalAngle * E.sin p.orbitalInclination,
          E.cos p.orbitalAngle⟩
    { p with position := parentPosition.add relativePositionFromParent }

/-- `Planet::getNormal`: `normalize(vertex - position)`. -/
def Planet.getNormal (E : Env) (p : Planet) (vertex : Vec3) : Vec3 :=
  E.normalize (vertex.sub p.position)

/-- `Planet::updateNormals` (the GPU upload is an external side effect with no
model state). -/
def Planet.updateNormals (E : Env) (p : Planet) : Planet :=
  { p with normals := p.verts.map (p.getNormal E) }

/-- `Planet::updateTranslationMatrix`. -/
def Planet.updateTranslationMatrix (E : Env) (parentPos : Option Vec3) (p : Planet) : Planet :=
  match parentPos with
  | none => { p with translationMatrix := p.modelMatrix }
  | some _ => { p with translationMatrix := E.translate p.modelMatrix p.position }

/-- `Planet::updateOrbitalRotation`. -/
def Planet.updateOrbitalRotation (E : Env) (parentPos : Option Vec3) (g : Globals)
    (p : Planet) : Planet :=
  let p := { p with
    orbitalAngle := p.orbitalAngle + p.orbitalSpeed * g.animationSpeed * getElapsedTime g }
  let p := p.updateLocation E parentPos
  let p := p.updateNormals E
  p.updateTranslationMatrix E parentPos

/-- `Planet::animate`: reads the clock (`tNow` models the `glfwGetTime()`
call), updates axial then orbital rotation, then commits
`lastUpdateTime = currUpdateTime` — all through the shared globals. -/
def Planet.animate (E : Env) (parentPos : Option Vec3) (tNow : ℚ) (g : Globals)
    (p : Planet) : Globals × Planet :=
  let g := { g with currUpdateTime := tNow }
  let p := p.updateAxialRotation E g
  let p := p.updateOrbitalRotation E parentPos g
  ({ g with lastUpdateTime := g.currUpdateTime }, p)

/-- `Planet::resetOrientation`. -/
def Planet.resetOrientation (E : Env) (p : Planet) : Planet :=
  let orbitalAngle := PI / 2
  let axialAngle := PI / 2
  let initAxialAngle := p.orbitalInclination + axialAngle + p.axialTilt
  let axialRotationMatrix := E.rotate p.modelMatrix initAxialAngle xAxisOfRotation
  { p with
    orbitalAngle := orbitalAngle
    axialAngle := axialAngle
    axialRotationMatrix := axialRotationMatrix
    negAxialRotationMatrix := p.modelMatrix
    rotationAxis := (axialRotationMatrix.mulVec yAxisMatrix).toVec3 }

/-- `Planet::getVertexCoord`: `radius * vec3(sin(phi)*cos(theta), sin(phi)*sin(theta), cos(phi))`. -/
def Planet.getVertexCoord (E : Env) (p : Planet) (phi theta : ℚ) : Vec3 :=
  Vec3.scale p.radius ⟨E.sin phi * E.cos theta, E.sin phi * E.sin theta, E.cos phi⟩

/-- `Planet::getTextureCoord`: `vec2(theta / (2 * PI), phi / PI)`. -/
def getTextureCoord (phi theta : ℚ) : Vec2 := ⟨theta / (2 * PI), phi / PI⟩

/-- `Planet::drawPoint`: push one vertex and its texture coordinate. -/
def Planet.drawPoint (E : Env) (p : Planet) (phi theta : ℚ) : Planet :=
  { p with
    verts := p.verts ++ [p.getVertexCoord E phi theta]
    texCoords := p.texCoords ++ [getTextureCoord phi theta] }

/-- Termination measure for the `for (x = start; x <= bound; x += uvInc)` loops:
the number of remaining iterations, counted by a ceiling. -/
def loopFuel (bound x : ℚ) : ℕ := (⌈(bound + uvInc - x) / uvInc⌉).toNat

/-- The inner loop of `Planet::generateSphere`:
`for (float v = 0.0f; v <= 2 * PI; v += uvInc)`, emitting two triangles
(six vertices) per iteration. -/
def Planet.sphereInnerLoop (E : Env) (u : ℚ) (p : Planet) (v : ℚ) : Planet :=
  if v ≤ 2 * PI then
    let p := p.drawPoint E u v
    let p := p.drawPoint E (u + uvInc) v
    let p := p.drawPoint E u (v + uvInc)
    let p := p.drawPoint E (u + uvInc) v
    let p := p.drawPoint E (u + uvInc) (v + uvInc)
    let p := p.drawPoint E u (v + uvInc)
    Planet.sphereInnerLoop E u p (v + uvInc)
  else p
termination_by loopFuel (2 * PI) v
decreasing_by
  rename_i h
  unfold loopFuel
  have hInc : (0 : ℚ) < uvInc := by norm_num [uvInc]
  have h1 : (2 * PI + uvInc - (v + uvInc)) / uvInc = (2 * PI + uvInc - v) / uvInc - 1 := by
    field_simp
    ring
  rw [h1, Int.ceil_sub_one]
  have h2 : (0 : ℚ) < (2 * PI + uvInc - v) / uvInc := div_pos (by linarith) hInc
  have h3 : (1 : ℤ) ≤ ⌈(2 * PI + uvInc - v) / uvInc⌉ := Int.one_le_ceil_iff.mpr h2
  omega

/-- The outer loop of `Planet::generateSphere`:
`for (float u = 0.0f; u <= PI; u += uvInc)`. -/
def Planet.sphereOuterLoop (E : Env) (p : Planet) (u : ℚ) : Planet :=
  if u ≤ PI then Planet.sphereOuterLoop E (Planet.sphereInnerLoop E u p 0) (u + uvInc)
  else p
termination_by loopFuel PI u
decreasing_by
  rename_i h
  unfold loopFuel
  have hInc : (0 : ℚ) < uvInc := by norm_num [uvInc]
  have h1 : (PI + uvInc - (u + uvInc)) / uvInc = (PI + uvInc - u) / uvInc - 1 := by
    field_simp
    ring
  rw [h1, Int.ceil_sub_one]
  have h2 : (0 : ℚ) < (PI + uvInc - u) / uvInc := div_pos (by linarith) hInc
  have h3 : (1 : ℤ) ≤ ⌈(PI + uvInc - u) / uvInc⌉ := Int.one_le_ceil_iff.mpr h2
  omega

/-- `Planet::generateSphere`: clear vertices and texture coordinates, run the
nested loops, then `updateNormals` (the `updateGPUGeom` upload is external). -/
def Planet.generateSphere (E : Env) (p : Planet) : Planet :=
  let p := { p with verts := [], texCoords := [] }
  let p := Planet.sphereOuterLoop E p 0
  p.updateNormals E

/-- The grid of parameter values visited by a
`for (x = start; x <= bound; x += uvInc)` loop, following the spec's
"grid parameters stepped by the fixed angular step". -/
def gridVals (bound : ℚ) (x : ℚ) : List ℚ :=
  if x ≤ bound then x :: gridVals bound (x + uvInc) else []
termination_by loopFuel bound x
decreasing_by
  rename_i h
  unfold loopFuel
  have hInc : (0 : ℚ) < uvInc := by norm_num [uvInc]
  have h1 : (bound + uvInc - (x + uvInc)) / uvInc = (bound + uvInc - x) / uvInc - 1 := by
    field_simp
    ring
  rw [h1, Int.ceil_sub_one]
  have h2 : (0 : ℚ) < (bound + uvInc - x) / uvInc := div_pos (by linarith) hInc
  have h3 : (1 : ℤ) ≤ ⌈(bound + uvInc - x) / uvInc⌉ := Int.one_le_ceil_iff.mpr h2
  omega

/-- The six corners the spec lists for the two triangles of grid cell `(u, v)`:
`{u,v}, {u+Δ,v}, {u,v+Δ}` and `{u+Δ,v}, {u+Δ,v+Δ}, {u,v+Δ}`. -/
def cellCorners (u v : ℚ) : List (ℚ × ℚ) :=
  [(u, v), (u + uvInc, v), (u, v + uvInc),
   (u + uvInc, v), (u + uvInc, v + uvInc), (u, v + uvInc)]

/-- The spec-side description of the emitted parameter sequence: for every grid
cell `(u, v)`, the six corners of its two triangles, in grid order. -/
def sphereSpecParams : List (ℚ × ℚ) :=
  (gridVals PI 0).flatMap fun u => (gridVals (2 * PI) 0).flatMap fun v => cellCorners u v

/-- The spec's vertex-position formula `r·(sin u cos v, sin u sin v, cos u)`. -/
def specVertex (E : Env) (r u v : ℚ) : Vec3 :=
  Vec3.scale r ⟨E.sin u * E.cos v, E.sin u * E.sin v, E.cos u⟩

/-- The spec's texture-coordinate formula `(v / 2π, u / π)`. -/
def specTexture (u v : ℚ) : Vec2 := ⟨v / (2 * PI), u / PI⟩

/-- GLFW key and action constants used by `Assignment4::keyCallback`. -/
def GLFW_KEY_SPACE : ℤ := 32

def GLFW_KEY_UP : ℤ := 265

def GLFW_KEY_DOWN : ℤ := 264

def GLFW_KEY_R : ℤ := 82

def GLFW_PRESS : ℤ := 1

/-- `Assignment4::keyCallback`: pause toggle, speed up, speed down (clamped at
zero with `std::max`), reset request. Only the globals are touched. -/
def keyCallback (g : Globals) (key scancode action mods : ℤ) : Globals :=
  if key = GLFW_KEY_SPACE ∧ action = GLFW_PRESS then
    { g with isAnimating := !g.isAnimating }
  else if key = GLFW_KEY_UP ∧ action = GLFW_PRESS ∧ g.isAnimating then
    { g with animationSpeed := g.animationSpeed + 0.1 }
  else if key = GLFW_KEY_DOWN ∧ action = GLFW_PRESS ∧ g.isAnimating then
    { g with animationSpeed := max 0 (g.animationSpeed - 0.1) }
  else if key = GLFW_KEY_R ∧ action = GLFW_PRESS then
    { g with restartAnimation := true }
  else g

/-- A key event as delivered to `keyCallback`: (key, scancode, action, mods). -/
def KeyEvent : Type := ℤ × ℤ × ℤ × ℤ

/-- The animated bodies of the render loop plus the shared globals.
(`starBackground` is drawn but never animated or reset, so it carries no
mutable state relevant here.) -/
structure SysState where
  g : Globals
  sun : Planet
  earth : Planet
  moon : Planet

/-- The `if (isAnimating)` block of the render loop:
`sun.animate(); earth.animate(); moon.animate();` in that order, each call
reading the clock afresh (`t1`, `t2`, `t3`) and each child reading its
parent's already-updated position through the parent pointer. -/
def animateBlock (E : Env) (t1 t2 t3 : ℚ) (g : Globals) (sun earth moon : Planet) :
    Globals × Planet × Planet × Planet :=
  let r1 := Planet.animate E none t1 g sun
  let r2 := Planet.animate E (some r1.2.position) t2 r1.1 earth
  let r3 := Planet.animate E (some r2.2.position) t3 r2.1 moon
  (r3.1, r1.2, r2.2, r3.2)

/-- One iteration of the render loop, restricted to the state the claims are
about: poll events (each key event runs `keyCallback`), service a pending
reset request (resetting sun, earth and moon and clearing the flag), draw
(state-free), then run the animate block when `isAnimating`. -/
def frame (E : Env) (events : List KeyEvent) (t1 t2 t3 : ℚ) (s : SysState) : SysState :=
  let g := events.foldl (fun g e => keyCallback g e.1 e.2.1 e.2.2.1 e.2.2.2) s.g
  let serviced :=
    if g.restartAnimation then
      (({ g with restartAnimation := false } : Globals),
        s.sun.resetOrientation E, s.earth.resetOrientation E, s.moon.resetOrientation E)
    else (g, s.sun, s.earth, s.moon)
  if serviced.1.isAnimating then
    let r := animateBlock E t1 t2 t3 serviced.1 serviced.2.1 serviced.2.2.1 serviced.2.2.2
    ⟨r.1, r.2.1, r.2.2.1, r.2.2.2⟩
  else ⟨serviced.1, serviced.2.1, serviced.2.2.1, serviced.2.2.2⟩

/-- A sequence of render-loop iterations with no input events, each with its
own triple of clock readings. -/
def framesNoEvents (E : Env) (ts : List (ℚ × ℚ × ℚ)) (s : SysState) : SysState :=
  ts.foldl (fun s t => frame E [] t.1 t.2.1 t.2.2 s) s

/-- A concrete interpretation of the external collaborators, used to evaluate
the model at concrete inputs. -/
def envZero : Env :=
  ⟨fun _ => 0, fun _ => 0, fun v => v, fun m _ _ => m, fun m _ => m⟩

/-- A concrete planet with unit axial speed, used for concrete runs. -/
def planetOne : Planet where
  orbitalInclination := 0
  axialTilt := 0
  distanceFromParent := 0
  orbitalSpeed := 1
  rotationSpeed := 1
  radius := 1
  orbitalAngle := 0
  axialAngle := 0
  position := ⟨0, 0, 0⟩
  rotationAxis := ⟨0, 1, 0⟩
  verts := []
  texCoords := []
  normals := []
  modelMatrix := mat4Identity
  translationMatrix := mat4Identity
  axialRotationMatrix := mat4Identity
  negAxialRotationMatrix := mat4Identity

/-- As `planetOne` but a different radius, for the determinism witness. -/
def planetTwo : Planet := { planetOne with radius := 2, axialAngle := 5 }

/-- As `planetOne` but different angle state, same radius. -/
def planetThree : Planet := { planetOne with orbitalAngle := 9 }

/-- Concrete globals: unit speed, animating, no pending reset, clock at 0. -/
def globalsStart : Globals := ⟨1, true, false, 0, 0⟩

/-- Concrete globals: unit speed, paused, no pending reset, clock at 0. -/
def globalsPaused : Globals := ⟨1, false, false, 0, 0⟩

/-- A concrete system state for the render-loop witnesses. -/
def sysPaused : SysState := ⟨globalsPaused, planetOne, planetOne, planetOne⟩

/-! ## Helper lemmas -/

theorem animate_fst (E : Env) (pp : Option Vec3) (t : ℚ) (g : Globals) (p : Planet) :
    (Planet.animate E pp t g p).1 = { g with currUpdateTime := t, lastUpdateTime := t } := by
  rfl

theorem animate_snd_axialAngle (E : Env) (pp : Option Vec3) (t : ℚ) (g : Globals)
    (p : Planet) :
    (Planet.animate E pp t g p).2.axialAngle
      = p.axialAngle + p.rotationSpeed * g.animationSpeed * (t - g.lastUpdateTime) := by
  cases pp <;>
    simp [Planet.animate, Planet.updateAxialRotation, Planet.updateOrbitalRotation,
      Planet.updateLocation, Planet.updateNormals, Planet.updateTranslationMatrix,
      getElapsedTime]

theorem animate_snd_orbitalAngle (E : Env) (pp : Option Vec3) (t : ℚ) (g : Globals)
    (p : Planet) :
    (Planet.animate E pp t g p).2.orbitalAngle
      = p.orbitalAngle + p.orbitalSpeed * g.animationSpeed * (t - g.lastUpdateTime) := by
  cases pp <;>
    simp [Planet.animate, Planet.updateAxialRotation, Planet.updateOrbitalRotation,
      Planet.updateLocation, Planet.updateNormals, Planet.updateTranslationMatrix,
      getElapsedTime]

/-! ## Claim theorems -/

/-- C2: after each location update, a body with a parent at world position `P`
sits at `P + d·(sin θ, sin θ·sin i, cos θ)`, and a body with no parent sits at
`(0,0,0)` regardless of its angle state. -/
theorem c2_orbit_composition (E : Env) (p : Planet) (parentP : Vec3) :
    (Planet.updateLocation E (some parentP) p).position
        = parentP.add (Vec3.scale p.distanceFromParent
            ⟨E.sin p.orbitalAngle, E.sin p.orbitalAngle * E.sin p.orbitalInclination,
              E.cos p.orbitalAngle⟩)
      ∧ (Planet.updateLocation E none p).position = ⟨0, 0, 0⟩ :=
  ⟨rfl, rfl⟩

/-- C3: for a fixed positive speed and a clock advance `Δt ≥ 0`, one
`animate()` call leaves `axialAngle` equal to its pre-call value plus
`axialSpeed · speedMultiplier · Δt`. -/
theorem c3_monotonic_accumulation (E : Env) (pp : Option Vec3) (g : Globals) (p : Planet)
    (tNow dt : ℚ) (hspeed : 0 < g.animationSpeed) (hdt : 0 ≤ dt)
    (ht : tNow = g.lastUpdateTime + dt) :
    (Planet.animate E pp tNow g p).2.axialAngle
      = p.axialAngle + p.rotationSpeed * g.animationSpeed * dt := by
  rw [animate_snd_axialAngle, ht]
  ring

/-- Witness for C3 at a concrete input: speed 1, `Δt = 1`. -/
theorem c3_witness :
    (0 : ℚ) < globalsStart.animationSpeed ∧ (0 : ℚ) ≤ 1
      ∧ (1 : ℚ) = globalsStart.lastUpdateTime + 1
      ∧ (Planet.animate envZero none 1 globalsStart planetOne).2.axialAngle
          = planetOne.axialAngle + planetOne.rotationSpeed * globalsStart.animationSpeed * 1 :=
  ⟨one_pos, zero_le_one, (zero_add 1).symm,
    c3_monotonic_accumulation envZero none globalsStart planetOne 1 1 one_pos zero_le_one
      (zero_add 1).symm⟩

/-- C6: calling `resetOrientation` twice in succession yields the same
`axialAngle`, `orbitalAngle`, and `rotationAxis` as calling it once. -/
theorem c6_reset_idempotent (E : Env) (p : Planet) :
    ((p.resetOrientation E).resetOrientation E).axialAngle
        = (p.resetOrientation E).axialAngle
      ∧ ((p.resetOrientation E).resetOrientation E).orbitalAngle
        = (p.resetOrientation E).orbitalAngle
      ∧ ((p.resetOrientation E).resetOrientation E).rotationAxis
        = (p.resetOrientation E).rotationAxis :=
  ⟨rfl, rfl, rfl⟩

/-- C7: an `animate()` call leaves the mesh vertices, the texture coordinates,
`rotationAxis`, and every construction-time constant unchanged — only normals,
the two angles, `position`, and the three transform matrices can change. -/
theorem c7_animate_frame_effect (E : Env) (pp : Option Vec3) (t : ℚ) (g : Globals)
    (p : Planet) :
    (Planet.animate E pp t g p).2.verts = p.verts
      ∧ (Planet.animate E pp t g p).2.texCoords = p.texCoords
      ∧ (Planet.animate E pp t g p).2.rotationAxis = p.rotationAxis
      ∧ (Planet.animate E pp t g p).2.radius = p.radius
      ∧ (Planet.animate E pp t g p).2.orbitalInclination = p.orbitalInclination
      ∧ (Planet.animate E pp t g p).2.axialTilt = p.axialTilt
      ∧ (Planet.animate E pp t g p).2.distanceFromParent = p.distanceFromParent
      ∧ (Planet.animate E pp t g p).2.orbitalSpeed = p.orbitalSpeed
      ∧ (Planet.animate E pp t g p).2.rotationSpeed = p.rotationSpeed
      ∧ (Planet.animate E pp t g p).2.modelMatrix = p.modelMatrix := by
  cases pp <;>
    simp [Planet.animate, Planet.updateAxialRotation, Planet.updateOrbitalRotation,
      Planet.updateLocation, Planet.updateNormals, Planet.updateTranslationMatrix,
      getElapsedTime]

/-- The globals are shared: each `animate()` reads the clock afresh into
`currUpdateTime` and commits `lastUpdateTime` when it finishes, so within one
frame each body's elapsed time runs from the previous body's update. -/
theorem c1_counterexample :
    (animateBlock envZero 1 1 1 globalsStart planetOne planetOne planetOne).2.1.axialAngle
        = planetOne.axialAngle
          + planetOne.rotationSpeed * globalsStart.animationSpeed
            * (1 - globalsStart.lastUpdateTime)
      ∧ (animateBlock envZero 1 1 1 globalsStart planetOne planetOne planetOne).2.2.1.axialAngle
          ≠ planetOne.axialAngle
            + planetOne.rotationSpeed * globalsStart.animationSpeed
              * (1 - globalsStart.lastUpdateTime) := by
  constructor
  · show (Planet.animate envZero none 1 globalsStart planetOne).2.axialAngle = _
    rw [animate_snd_axialAngle]
  · show (Planet.animate envZero (some _) 1
      (Planet.animate envZero none 1 globalsStart planetOne).1 planetOne).2.axialAngle ≠ _
    rw [animate_snd_axialAngle, animate_fst]
    norm_num [globalsStart, planetOne]

/-- C1 as amended: within one frame the three `animate()` calls do not share a
delta — the sun advances by its rates times `t1 − lastUpdateTime`, the earth by
`t2 − t1`, and the moon by `t3 − t2`, where `tᵢ` is the clock reading taken
inside body `i`'s own `animate()` call; afterwards `lastUpdateTime = t3`. -/
theorem c1_amended (E : Env) (t1 t2 t3 : ℚ) (g : Globals) (sun earth moon : Planet) :
    (animateBlock E t1 t2 t3 g sun earth moon).2.1.axialAngle
        = sun.axialAngle + sun.rotationSpeed * g.animationSpeed * (t1 - g.lastUpdateTime)
      ∧ (animateBlock E t1 t2 t3 g sun earth moon).2.1.orbitalAngle
        = sun.orbitalAngle + sun.orbitalSpeed * g.animationSpeed * (t1 - g.lastUpdateTime)
      ∧ (animateBlock E t1 t2 t3 g sun earth moon).2.2.1.axialAngle
        = earth.axialAngle + earth.rotationSpeed * g.animationSpeed * (t2 - t1)
      ∧ (animateBlock E t1 t2 t3 g sun earth moon).2.2.1.orbitalAngle
        = earth.orbitalAngle + earth.orbitalSpeed * g.animationSpeed * (t2 - t1)
      ∧ (animateBlock E t1 t2 t3 g sun earth moon).2.2.2.axialAngle
        = moon.axialAngle + moon.rotationSpeed * g.animationSpeed * (t3 - t2)
      ∧ (animateBlock E t1 t2 t3 g sun earth moon).2.2.2.orbitalAngle
        = moon.orbitalAngle + moon.orbitalSpeed * g.animationSpeed * (t3 - t2)
      ∧ (animateBlock E t1 t2 t3 g sun earth moon).1.lastUpdateTime = t3 := by
  unfold animateBlock
  simp [animate_fst, animate_snd_axialAngle, animate_snd_orbitalAngle]

theorem keyCallback_animationSpeed_nonneg (g : Globals) (k s a m : ℤ)
    (h : 0 ≤ g.animationSpeed) : 0 ≤ (keyCallback g k s a m).animationSpeed := by
  unfold keyCallback
  split_ifs
  · exact h
  · show (0 : ℚ) ≤ g.animationSpeed + 0.1
    linarith
  · exact le_max_left _ _
  · exact h
  · exact h

/-- C8: starting from any non-negative `speedMultiplier`, no sequence of key
events — speed increases and (zero-clamped) decreases included — can drive
`animationSpeed` below zero. -/
theorem c8_speed_floor (g : Globals) (events : List KeyEvent)
    (h : 0 ≤ g.animationSpeed) :
    0 ≤ (events.foldl (fun g e => keyCallback g e.1 e.2.1 e.2.2.1 e.2.2.2) g).animationSpeed := by
  induction events generalizing g with
  | nil => exact h
  | cons e es ih =>
    exact ih _ (keyCallback_animationSpeed_nonneg g e.1 e.2.1 e.2.2.1 e.2.2.2 h)

/-- Witness for C8: one speed-decrease press starting from speed 1. -/
theorem c8_witness :
    (0 : ℚ) ≤ globalsStart.animationSpeed
      ∧ 0 ≤ (([((264 : ℤ), (0 : ℤ), (1 : ℤ), (0 : ℤ))] :
          List KeyEvent).foldl
            (fun g e => keyCallback g e.1 e.2.1 e.2.2.1 e.2.2.2)
            globalsStart).animationSpeed :=
  ⟨zero_le_one,
    c8_speed_floor globalsStart [((264 : ℤ), (0 : ℤ), (1 : ℤ), (0 : ℤ))] zero_le_one⟩

/-- C9: `resetOrientation` snaps both angles to `π/2` and recomputes the axial
rotation matrices and `rotationAxis`, but leaves `position` and the
translation matrix untouched; and while paused, a frame that services a reset
request moves no body. -/
theorem c9_reset_preserves_position (E : Env) (p : Planet) (s : SysState) (t1 t2 t3 : ℚ)
    (hA : s.g.isAnimating = false) :
    (p.resetOrientation E).position = p.position
      ∧ (p.resetOrientation E).translationMatrix = p.translationMatrix
      ∧ (p.resetOrientation E).orbitalAngle = PI / 2
      ∧ (p.resetOrientation E).axialAngle = PI / 2
      ∧ (p.resetOrientation E).negAxialRotationMatrix = p.modelMatrix
      ∧ (p.resetOrientation E).axialRotationMatrix
          = E.rotate p.modelMatrix (p.orbitalInclination + PI / 2 + p.axialTilt)
              xAxisOfRotation
      ∧ (p.resetOrientation E).rotationAxis
          = ((E.rotate p.modelMatrix (p.orbitalInclination + PI / 2 + p.axialTilt)
              xAxisOfRotation).mulVec yAxisMatrix).toVec3
      ∧ (frame E [] t1 t2 t3 s).sun.position = s.sun.position
      ∧ (frame E [] t1 t2 t3 s).earth.position = s.earth.position
      ∧ (frame E [] t1 t2 t3 s).moon.position = s.moon.position := by
  refine ⟨rfl, rfl, rfl, rfl, rfl, rfl, rfl, ?_, ?_, ?_⟩ <;>
  · simp only [frame, List.foldl_nil]
    cases hr : s.g.restartAnimation <;> simp [hr, hA, Planet.resetOrientation]

/-- Witness for C9: a paused concrete system with a pending reset request. -/
theorem c9_witness :
    (planetOne.resetOrientation envZero).position = planetOne.position
      ∧ (planetOne.resetOrientation envZero).translationMatrix = planetOne.translationMatrix
      ∧ (planetOne.resetOrientation envZero).orbitalAngle = PI / 2
      ∧ (planetOne.resetOrientation envZero).axialAngle = PI / 2
      ∧ (planetOne.resetOrientation envZero).negAxialRotationMatrix = planetOne.modelMatrix
      ∧ (planetOne.resetOrientation envZero).axialRotationMatrix
          = envZero.rotate planetOne.modelMatrix
              (planetOne.orbitalInclination + PI / 2 + planetOne.axialTilt) xAxisOfRotation
      ∧ (planetOne.resetOrientation envZero).rotationAxis
          = ((envZero.rotate planetOne.modelMatrix
              (planetOne.orbitalInclination + PI / 2 + planetOne.axialTilt)
              xAxisOfRotation).mulVec yAxisMatrix).toVec3
      ∧ (frame envZero [] 1 2 3 sysPaused).sun.position = sysPaused.sun.position
      ∧ (frame envZero [] 1 2 3 sysPaused).earth.position = sysPaused.earth.position
      ∧ (frame envZero [] 1 2 3 sysPaused).moon.position = sysPaused.moon.position :=
  c9_reset_preserves_position envZero planetOne sysPaused 1 2 3 rfl

theorem frame_paused_id (E : Env) (t1 t2 t3 : ℚ) (s : SysState)
    (hA : s.g.isAnimating = false) (hR : s.g.restartAnimation = false) :
    frame E [] t1 t2 t3 s = s := by
  simp only [frame, List.foldl_nil, hR]
  simp [hA]

theorem framesNoEvents_paused_id (E : Env) (ts : List (ℚ × ℚ × ℚ)) (s : SysState)
    (hA : s.g.isAnimating = false) (hR : s.g.restartAnimation = false) :
    framesNoEvents E ts s = s := by
  induction ts with
  | nil => rfl
  | cons t ts ih =>
    show framesNoEvents E ts (frame E [] t.1 t.2.1 t.2.2 s) = s
    rw [frame_paused_id E t.1 t.2.1 t.2.2 s hA hR]
    exact ih

/-- C10: while paused, frames leave the whole system — `lastUpdateTime`
included — untouched, and the first `animate()` call of the unpausing frame
advances the first body's angles by its rates times
`t1 − lastUpdateTime`, an elapsed time that spans the entire pause. -/
theorem c10_pause_time_base (E : Env) (ts : List (ℚ × ℚ × ℚ)) (t1 t2 t3 : ℚ)
    (s : SysState) (hA : s.g.isAnimating = false) (hR : s.g.restartAnimation = false) :
    framesNoEvents E ts s = s
      ∧ (frame E [(GLFW_KEY_SPACE, 0, GLFW_PRESS, 0)] t1 t2 t3
            (framesNoEvents E ts s)).sun.axialAngle
          = s.sun.axialAngle
            + s.sun.rotationSpeed * s.g.animationSpeed * (t1 - s.g.lastUpdateTime)
      ∧ (frame E [(GLFW_KEY_SPACE, 0, GLFW_PRESS, 0)] t1 t2 t3
            (framesNoEvents E ts s)).sun.orbitalAngle
          = s.sun.orbitalAngle
            + s.sun.orbitalSpeed * s.g.animationSpeed * (t1 - s.g.lastUpdateTime) := by
  rw [framesNoEvents_paused_id E ts s hA hR]
  refine ⟨rfl, ?_, ?_⟩ <;>
    simp [frame, keyCallback, GLFW_KEY_SPACE, GLFW_PRESS, GLFW_KEY_UP, GLFW_KEY_DOWN,
      GLFW_KEY_R, hA, hR, animateBlock, animate_fst, animate_snd_axialAngle,
      animate_snd_orbitalAngle]

/-- Witness for C10: a paused concrete system, three idle frames, then an
unpausing space press. -/
theorem c10_witness :
    framesNoEvents envZero [(1, 1, 1), (2, 2, 2), (3, 3, 3)] sysPaused = sysPaused
      ∧ (frame envZero [(GLFW_KEY_SPACE, 0, GLFW_PRESS, 0)] 7 7 7
            (framesNoEvents envZero [(1, 1, 1), (2, 2, 2), (3, 3, 3)] sysPaused)).sun.axialAngle
          = sysPaused.sun.axialAngle
            + sysPaused.sun.rotationSpeed * sysPaused.g.animationSpeed
              * (7 - sysPaused.g.lastUpdateTime)
      ∧ (frame envZero [(GLFW_KEY_SPACE, 0, GLFW_PRESS, 0)] 7 7 7
            (framesNoEvents envZero [(1, 1, 1), (2, 2, 2), (3, 3, 3)] sysPaused)).sun.orbitalAngle
          = sysPaused.sun.orbitalAngle
            + sysPaused.sun.orbitalSpeed * sysPaused.g.animationSpeed
              * (7 - sysPaused.g.lastUpdateTime) :=
  c10_pause_time_base envZero [(1, 1, 1), (2, 2, 2), (3, 3, 3)] 7 7 7 sysPaused rfl rfl

theorem drawPoint_fields (E : Env) (p : Planet) (phi theta : ℚ) :
    (p.drawPoint E phi theta).verts = p.verts ++ [specVertex E p.radius phi theta]
      ∧ (p.drawPoint E phi theta).texCoords = p.texCoords ++ [specTexture phi theta]
      ∧ (p.drawPoint E phi theta).radius = p.radius :=
  ⟨rfl, rfl, rfl⟩

theorem sphereInnerLoop_spec (E : Env) (u : ℚ) (v : ℚ) : ∀ p : Planet,
    (Planet.sphereInnerLoop E u p v).verts
        = p.verts ++ ((gridVals (2 * PI) v).flatMap fun w =>
            (cellCorners u w).map fun c => specVertex E p.radius c.1 c.2)
      ∧ (Planet.sphereInnerLoop E u p v).texCoords
        = p.texCoords ++ ((gridVals (2 * PI) v).flatMap fun w =>
            (cellCorners u w).map fun c => specTexture c.1 c.2)
      ∧ (Planet.sphereInnerLoop E u p v).radius = p.radius := by
  induction v using gridVals.induct (2 * PI) with
  | case1 v h ih =>
    intro p
    rw [Planet.sphereInnerLoop, if_pos h]
    rw [gridVals, if_pos h]
    simp only [List.flatMap_cons]
    obtain ⟨ih1, ih2, ih3⟩ := ih ((((((p.drawPoint E u v).drawPoint E (u + uvInc) v).drawPoint
      E u (v + uvInc)).drawPoint E (u + uvInc) v).drawPoint E (u + uvInc)
      (v + uvInc)).drawPoint E u (v + uvInc))
    refine ⟨?_, ?_, ?_⟩
    · rw [ih1]
      simp [Planet.drawPoint, Planet.getVertexCoord, specVertex, getTextureCoord, specTexture,
        cellCorners, List.append_assoc]
    · rw [ih2]
      simp [Planet.drawPoint, Planet.getVertexCoord, specVertex, getTextureCoord, specTexture,
        cellCorners, List.append_assoc]
    · rw [ih3]
      simp [Planet.drawPoint]
  | case2 v h =>
    intro p
    rw [Planet.sphereInnerLoop, if_neg h]
    rw [gridVals, if_neg h]
    simp

theorem sphereOuterLoop_spec (E : Env) (u : ℚ) : ∀ p : Planet,
    (Planet.sphereOuterLoop E p u).verts
        = p.verts ++ ((gridVals PI u).flatMap fun uu =>
            (gridVals (2 * PI) 0).flatMap fun w =>
              (cellCorners uu w).map fun c => specVertex E p.radius c.1 c.2)
      ∧ (Planet.sphereOuterLoop E p u).texCoords
        = p.texCoords ++ ((gridVals PI u).flatMap fun uu =>
            (gridVals (2 * PI) 0).flatMap fun w =>
              (cellCorners uu w).map fun c => specTexture c.1 c.2)
      ∧ (Planet.sphereOuterLoop E p u).radius = p.radius := by
  induction u using gridVals.induct PI with
  | case1 u h ih =>
    intro p
    rw [Planet.sphereOuterLoop, if_pos h]
    rw [gridVals, if_pos h]
    simp only [List.flatMap_cons]
    obtain ⟨ih1, ih2, ih3⟩ := ih (Planet.sphereInnerLoop E u p 0)
    obtain ⟨l1, l2, l3⟩ := sphereInnerLoop_spec E u 0 p
    refine ⟨?_, ?_, ?_⟩
    · rw [ih1, l3, l1]
      simp [List.append_assoc]
    · rw [ih2, l2]
      simp [List.append_assoc]
    · rw [ih3, l3]
  | case2 u h =>
    intro p
    rw [Planet.sphereOuterLoop, if_neg h]
    rw [gridVals, if_neg h]
    simp

theorem generateSphere_fields (E : Env) (p : Planet) :
    (p.generateSphere E).verts
        = sphereSpecParams.map (fun c => specVertex E p.radius c.1 c.2)
      ∧ (p.generateSphere E).texCoords = sphereSpecParams.map fun c => specTexture c.1 c.2 := by
  obtain ⟨l1, l2, l3⟩ :=
    sphereOuterLoop_spec E 0 { p with verts := [], texCoords := [] }
  constructor
  · show (Planet.sphereOuterLoop E { p with verts := [], texCoords := [] } 0).verts = _
    rw [l1]
    simp [sphereSpecParams, List.map_flatMap]
  · show (Planet.sphereOuterLoop E { p with verts := [], texCoords := [] } 0).texCoords = _
    rw [l2]
    simp [sphereSpecParams, List.map_flatMap]

/-- C4: the sphere generator emits, for every grid cell `(u, v)` of the
step-`Δ` parameter grid, the six vertices of its two triangles — corners
`{u,v}, {u+Δ,v}, {u,v+Δ}` and `{u+Δ,v}, {u+Δ,v+Δ}, {u,v+Δ}` — with position
`r·(sin u cos v, sin u sin v, cos u)` and texture coordinate
`(v / 2π, u / π)`. -/
theorem c4_sphere_generator (E : Env) (p : Planet) :
    (p.generateSphere E).verts
        = sphereSpecParams.map (fun c => specVertex E p.radius c.1 c.2)
      ∧ (p.generateSphere E).texCoords = sphereSpecParams.map fun c => specTexture c.1 c.2 :=
  generateSphere_fields E p

/-- C5: the sphere generator is deterministic — equal radii give identical
vertex and texture-coordinate sequences — and the emitted vertex count is the
same for every radius. -/
theorem c5_mesh_determinism (E : Env) (p q r₁ r₂ : Planet) (h : p.radius = q.radius) :
    ((p.generateSphere E).verts = (q.generateSphere E).verts
      ∧ (p.generateSphere E).texCoords = (q.generateSphere E).texCoords)
      ∧ (r₁.generateSphere E).verts.length = (r₂.generateSphere E).verts.length := by
  obtain ⟨pv, pt⟩ := generateSphere_fields E p
  obtain ⟨qv, qt⟩ := generateSphere_fields E q
  obtain ⟨rv1, _⟩ := generateSphere_fields E r₁
  obtain ⟨rv2, _⟩ := generateSphere_fields E r₂
  refine ⟨⟨?_, ?_⟩, ?_⟩
  · rw [pv, qv, h]
  · rw [pt, qt]
  · rw [rv1, rv2]
    simp

/-- Witness for C5: two same-radius planets in different angle states, and two
planets of different radii for the count conjunct. -/
theorem c5_witness :
    planetOne.radius = planetThree.radius
      ∧ (((planetOne.generateSphere envZero).verts = (planetThree.generateSphere envZero).verts
          ∧ (planetOne.generateSphere envZero).texCoords
            = (planetThree.generateSphere envZero).texCoords)
        ∧ (planetOne.generateSphere envZero).verts.length
          = (planetTwo.generateSphere envZero).verts.length) :=
  ⟨rfl, c5_mesh_determinism envZero planetOne planetThree planetOne planetTwo rfl⟩

end SolarSystem
